import Mathlib

/-!
Shallow embedding of `src/library/spdm_requester_lib/encap_challenge_auth.c`
(function `spdm_get_encap_response_challenge_auth`), the libspdm handler for an
encapsulated SPDM CHALLENGE request on the requester side.

Bytes are modelled as `Nat` (values below 256 on real inputs); byte buffers as
`List Nat`.  Collaborator routines whose bodies are not part of the source file
(capability query, transcript append, hash/signature sizes, certificate-chain
digest, random nonce, signer, version query, error-response generator) are
modelled from the spec as an explicit environment `Env`.
-/

namespace Spdm

/-- SPDM request code of the CHALLENGE request message. -/
def SPDM_CHALLENGE : Nat := 0x83

/-- SPDM response code of the CHALLENGE_AUTH response message. -/
def SPDM_CHALLENGE_AUTH : Nat := 0x03

/-- SPDM response code of the ERROR message. -/
def SPDM_ERROR : Nat := 0x7F

/-- Error code for an invalid request. -/
def SPDM_ERROR_CODE_INVALID_REQUEST : Nat := 0x01

/-- Error code for an unsupported request. -/
def SPDM_ERROR_CODE_UNSUPPORTED_REQUEST : Nat := 0x07

/-- SPDM message version 1.0. -/
def SPDM_MESSAGE_VERSION_10 : Nat := 0x10

/-- SPDM message version 1.1. -/
def SPDM_MESSAGE_VERSION_11 : Nat := 0x11

/-- Size in bytes of the nonce field (`SPDM_NONCE_SIZE`). -/
def SPDM_NONCE_SIZE : Nat := 32

/-- `sizeof(spdm_challenge_request_t)`: a 4-byte SPDM message header
(version, request code, param1 = slot selector, param2) followed by a
32-byte nonce. -/
def spdm_challenge_request_size : Nat := 36

/-- `sizeof(spdm_challenge_auth_response_t)`: just the 4-byte header
(version, response code, param1 = attribute byte, param2 = slot mask);
all further response fields are laid out after it. -/
def spdm_challenge_auth_response_header_size : Nat := 4

/-- `local_context` fields of the SPDM context read by this handler.
Source field `opaque_challenge_auth_rsp` (the vendor data blob echoed in the
response) is spelled `opaq_challenge_auth_rsp` here; its size field
`opaque_challenge_auth_rsp_size` is the list length. -/
structure spdm_local_context_t where
  slot_count : Nat
  provisioned_slot_id : Nat
  opaq_challenge_auth_rsp : List Nat
deriving DecidableEq

/-- `connection_info.algorithm` fields read by this handler. -/
structure spdm_algorithms_t where
  base_hash_algo : Nat
  req_base_asym_alg : Nat
deriving DecidableEq

/-- The SPDM context (`spdm_context_t`) restricted to the state this handler
touches: configuration plus the mutable message-C transcript accumulator,
kept here as the raw concatenation of appended bytes. -/
structure spdm_context_t where
  local_context : spdm_local_context_t
  algorithm : spdm_algorithms_t
  message_mut_c : List Nat
deriving DecidableEq

/-- Modelled from the spec: the collaborator interfaces consumed by the
handler (spec section 6) whose bodies are outside the source file: the
capability query (`spdm_is_capabilities_flag_supported` for `CHAL_CAP`), the
version-support query (`spdm_is_version_supported` for version 1.1, i.e. the
session negotiated at least 1.1), the algorithm-size lookups
(`spdm_get_hash_size`, `spdm_get_req_asym_signature_size`), whether a
transcript append is accepted (`append_ok`), the certificate-chain digest by
slot (`spdm_generate_cert_chain_hash`), the random nonce bytes
(`spdm_get_random_number`), and the signer
(`spdm_generate_challenge_auth_signature`), which receives the resolved slot
and the transcript state and returns the signature bytes on success. -/
structure Env where
  chal_cap_supported : Bool
  version_11_supported : Bool
  hash_size_of : Nat → Nat
  sig_size_of : Nat → Nat
  append_ok : List Nat → List Nat → Bool
  cert_chain_hash : Nat → List Nat
  nonce : List Nat
  sign : Nat → List Nat → Option (List Nat)

/-- Writing `src` into a zero-initialized field region of `n` bytes, after
which the write pointer advances by exactly `n`: the field holds the bytes of
`src` (up to `n` of them) padded with the zero fill from `zero_mem`. -/
def bytes_field (n : Nat) (src : List Nat) : List Nat :=
  src.take n ++ List.replicate (n - src.length) 0

/-- Little-endian encoding of a value truncated to `uint16`, as written by
`*(uint16 *)ptr = (uint16)v`. -/
def uint16_le (v : Nat) : List Nat := [v % 256, v / 256 % 256]

/-- The slot actually used for key material: the request's slot selector,
except that the sentinel `0xFF` is replaced by the provisioned default slot
(source lines 113-117). -/
def resolved_slot (ctx : spdm_context_t) (slot_id : Nat) : Nat :=
  if slot_id = 0xFF then ctx.local_context.provisioned_slot_id else slot_id

/-- The packed `spdm_challenge_auth_response_attribute_t` byte: slot nibble in
the low 4 bits (`slot_id & 0xF`), `basic_mut_auth_req` and `reserved` zero. -/
def auth_attribute_byte (slot_id : Nat) : Nat := slot_id % 16

/-- The response header `param2` slot-mask byte: `(uint8)(1 << slot_id)`,
overwritten with `0` for the sentinel selector (source lines 112-114). -/
def slot_mask_byte (slot_id : Nat) : Nat :=
  if slot_id = 0xFF then 0 else 2 ^ slot_id % 256

/-- The version byte selected for the response header: 1.1 when the session
negotiated at least 1.1, else 1.0 (source lines 102-106). -/
def spdm_select_version (env : Env) : Nat :=
  if env.version_11_supported then SPDM_MESSAGE_VERSION_11
  else SPDM_MESSAGE_VERSION_10

/-- Modelled from the spec: `spdm_generate_encap_error_response` (spec
section 4.7), whose body is outside the source file: a minimal fixed-size
(header-only, 4-byte) in-band error message carrying the error code and its
associated data. -/
def spdm_generate_encap_error_response (env : Env) (error_code error_data : Nat) :
    List Nat :=
  [spdm_select_version env, SPDM_ERROR, error_code, error_data]

/-- Modelled from the spec: `spdm_append_message_mut_c` (spec sections 4.4
and 6), whose body is outside the source file: an append-only transcript
accumulator operation that either accepts the bytes, extending the transcript
with exactly them, or rejects the append and leaves it unchanged. -/
def spdm_append_message_mut_c (env : Env) (transcript msg : List Nat) :
    Option (List Nat) :=
  if env.append_ok transcript msg then some (transcript ++ msg) else none

/-- The response bytes from the header through the opaque-data field,
excluding the trailing signature region, exactly as laid out by source lines
99-133: zero-filled buffer, 4-byte header, certificate-chain digest of the
resolved slot (hash-size bytes), 32-byte nonce, measurement-summary digest of
size 0, 2-byte little-endian opaque-data length, opaque data bytes. -/
def spdm_challenge_auth_response_unsigned (env : Env) (ctx : spdm_context_t)
    (slot_id : Nat) : List Nat :=
  [spdm_select_version env, SPDM_CHALLENGE_AUTH, auth_attribute_byte slot_id,
    slot_mask_byte slot_id]
  ++ bytes_field (env.hash_size_of ctx.algorithm.base_hash_algo)
      (env.cert_chain_hash (resolved_slot ctx slot_id))
  ++ bytes_field SPDM_NONCE_SIZE env.nonce
  ++ uint16_le ctx.local_context.opaq_challenge_auth_rsp.length
  ++ ctx.local_context.opaq_challenge_auth_rsp

/-- The observable outcome of one call: the returned status (`RETURN_SUCCESS`
as `true`), the value stored through `response_size`, the response bytes, and
the SPDM context afterwards. -/
structure ProcessResult where
  status_success : Bool
  response_size : Nat
  response : List Nat
  ctx : spdm_context_t
deriving DecidableEq

/-- `spdm_get_encap_response_challenge_auth` (source lines 26-157), step by
step: capability gate, exact-size check, slot-selector check, transcript
append of the request, response layout, transcript append of the unsigned
response, signature. Every failure path emits an in-band error message and
still returns `RETURN_SUCCESS`. -/
def spdm_get_encap_response_challenge_auth (env : Env) (ctx : spdm_context_t)
    (request : List Nat) : ProcessResult :=
  if env.chal_cap_supported = false then
    let err := spdm_generate_encap_error_response env
      SPDM_ERROR_CODE_UNSUPPORTED_REQUEST SPDM_CHALLENGE
    ⟨true, err.length, err, ctx⟩
  else if request.length ≠ spdm_challenge_request_size then
    let err := spdm_generate_encap_error_response env
      SPDM_ERROR_CODE_INVALID_REQUEST 0
    ⟨true, err.length, err, ctx⟩
  else
    let slot_id := request.getD 2 0
    if slot_id ≠ 0xFF ∧ ctx.local_context.slot_count ≤ slot_id then
      let err := spdm_generate_encap_error_response env
        SPDM_ERROR_CODE_INVALID_REQUEST 0
      ⟨true, err.length, err, ctx⟩
    else
      match spdm_append_message_mut_c env ctx.message_mut_c request with
      | none =>
        let err := spdm_generate_encap_error_response env
          SPDM_ERROR_CODE_INVALID_REQUEST 0
        ⟨true, err.length, err, ctx⟩
      | some t1 =>
        let ctx1 : spdm_context_t := { ctx with message_mut_c := t1 }
        let signature_size := env.sig_size_of ctx.algorithm.req_base_asym_alg
        let hash_size := env.hash_size_of ctx.algorithm.base_hash_algo
        let measurement_summary_hash_size := 0
        let total_size := spdm_challenge_auth_response_header_size + hash_size +
          SPDM_NONCE_SIZE + measurement_summary_hash_size + 2 +
          ctx.local_context.opaq_challenge_auth_rsp.length + signature_size
        let unsigned := spdm_challenge_auth_response_unsigned env ctx slot_id
        match spdm_append_message_mut_c env t1 unsigned with
        | none =>
          let err := spdm_generate_encap_error_response env
            SPDM_ERROR_CODE_INVALID_REQUEST 0
          ⟨true, err.length, err, ctx1⟩
        | some t2 =>
          let ctx2 : spdm_context_t := { ctx1 with message_mut_c := t2 }
          match env.sign (resolved_slot ctx slot_id) t2 with
          | none =>
            let err := spdm_generate_encap_error_response env
              SPDM_ERROR_CODE_UNSUPPORTED_REQUEST SPDM_CHALLENGE_AUTH
            ⟨true, err.length, err, ctx2⟩
          | some sg =>
            ⟨true, total_size, unsigned ++ bytes_field signature_size sg, ctx2⟩

theorem bytes_field_length (n : Nat) (s : List Nat) :
    (bytes_field n s).length = n := by
  simp [bytes_field]
  omega

theorem unsigned_length (env : Env) (ctx : spdm_context_t) (slot_id : Nat) :
    (spdm_challenge_auth_response_unsigned env ctx slot_id).length =
      4 + env.hash_size_of ctx.algorithm.base_hash_algo + SPDM_NONCE_SIZE +
        2 + ctx.local_context.opaq_challenge_auth_rsp.length := by
  simp [spdm_challenge_auth_response_unsigned, bytes_field_length, uint16_le]
  omega

theorem process_cap_fail_eq (env : Env) (ctx : spdm_context_t) (request : List Nat)
    (hcap : env.chal_cap_supported = false) :
    spdm_get_encap_response_challenge_auth env ctx request =
      ⟨true, 4,
        spdm_generate_encap_error_response env SPDM_ERROR_CODE_UNSUPPORTED_REQUEST
          SPDM_CHALLENGE, ctx⟩ := by
  simp [spdm_get_encap_response_challenge_auth, hcap,
    spdm_generate_encap_error_response]

theorem process_badreq_eq (env : Env) (ctx : spdm_context_t) (request : List Nat)
    (hcap : env.chal_cap_supported = true)
    (hbad : request.length ≠ spdm_challenge_request_size ∨
      (request.length = spdm_challenge_request_size ∧ request.getD 2 0 ≠ 0xFF ∧
        ctx.local_context.slot_count ≤ request.getD 2 0)) :
    spdm_get_encap_response_challenge_auth env ctx request =
      ⟨true, 4,
        spdm_generate_encap_error_response env SPDM_ERROR_CODE_INVALID_REQUEST 0,
        ctx⟩ := by
  rcases hbad with h | ⟨hlen, h1, h2⟩
  · simp [spdm_get_encap_response_challenge_auth, hcap, h,
      spdm_generate_encap_error_response]
  · simp only [List.getD_eq_getElem?_getD] at h1 h2
    simp [spdm_get_encap_response_challenge_auth, hcap, hlen, h1, h2,
      spdm_generate_encap_error_response]

theorem process_append1_fail_eq (env : Env) (ctx : spdm_context_t)
    (request : List Nat)
    (hcap : env.chal_cap_supported = true)
    (hlen : request.length = spdm_challenge_request_size)
    (hslot : request.getD 2 0 = 0xFF ∨
      request.getD 2 0 < ctx.local_context.slot_count)
    (happ1 : env.append_ok ctx.message_mut_c request = false) :
    spdm_get_encap_response_challenge_auth env ctx request =
      ⟨true, 4,
        spdm_generate_encap_error_response env SPDM_ERROR_CODE_INVALID_REQUEST 0,
        ctx⟩ := by
  simp only [List.getD_eq_getElem?_getD] at hslot
  rcases hslot with h | h
  · simp [spdm_get_encap_response_challenge_auth, hcap, hlen, h,
      spdm_append_message_mut_c, happ1, spdm_generate_encap_error_response]
  · have h' : ¬ ctx.local_context.slot_count ≤ request[2]?.getD 0 := by omega
    simp [spdm_get_encap_response_challenge_auth, hcap, hlen, h',
      spdm_append_message_mut_c, happ1, spdm_generate_encap_error_response]

theorem process_append2_fail_eq (env : Env) (ctx : spdm_context_t)
    (request : List Nat)
    (hcap : env.chal_cap_supported = true)
    (hlen : request.length = spdm_challenge_request_size)
    (hslot : request.getD 2 0 = 0xFF ∨
      request.getD 2 0 < ctx.local_context.slot_count)
    (happ1 : env.append_ok ctx.message_mut_c request = true)
    (happ2 : env.append_ok (ctx.message_mut_c ++ request)
      (spdm_challenge_auth_response_unsigned env ctx (request.getD 2 0)) = false) :
    spdm_get_encap_response_challenge_auth env ctx request =
      ⟨true, 4,
        spdm_generate_encap_error_response env SPDM_ERROR_CODE_INVALID_REQUEST 0,
        ⟨ctx.local_context, ctx.algorithm, ctx.message_mut_c ++ request⟩⟩ := by
  simp only [List.getD_eq_getElem?_getD] at hslot happ2
  rcases hslot with h | h
  · rw [h] at happ2
    simp [spdm_get_encap_response_challenge_auth, hcap, hlen, h,
      spdm_append_message_mut_c, happ1, happ2,
      spdm_generate_encap_error_response]
  · have h' : ¬ ctx.local_context.slot_count ≤ request[2]?.getD 0 := by omega
    simp [spdm_get_encap_response_challenge_auth, hcap, hlen, h',
      spdm_append_message_mut_c, happ1, happ2,
      spdm_generate_encap_error_response]

theorem process_sign_fail_eq (env : Env) (ctx : spdm_context_t)
    (request : List Nat)
    (hcap : env.chal_cap_supported = true)
    (hlen : request.length = spdm_challenge_request_size)
    (hslot : request.getD 2 0 = 0xFF ∨
      request.getD 2 0 < ctx.local_context.slot_count)
    (happ1 : env.append_ok ctx.message_mut_c request = true)
    (happ2 : env.append_ok (ctx.message_mut_c ++ request)
      (spdm_challenge_auth_response_unsigned env ctx (request.getD 2 0)) = true)
    (hsig : env.sign (resolved_slot ctx (request.getD 2 0))
      (ctx.message_mut_c ++ request ++
        spdm_challenge_auth_response_unsigned env ctx (request.getD 2 0)) = none) :
    spdm_get_encap_response_challenge_auth env ctx request =
      ⟨true, 4,
        spdm_generate_encap_error_response env SPDM_ERROR_CODE_UNSUPPORTED_REQUEST
          SPDM_CHALLENGE_AUTH,
        ⟨ctx.local_context, ctx.algorithm,
          ctx.message_mut_c ++ request ++
            spdm_challenge_auth_response_unsigned env ctx (request.getD 2 0)⟩⟩ := by
  simp only [List.getD_eq_getElem?_getD] at hslot happ2 hsig
  rw [List.append_assoc] at hsig
  rcases hslot with h | h
  · rw [h] at happ2 hsig
    simp [spdm_get_encap_response_challenge_auth, hcap, hlen, h,
      spdm_append_message_mut_c, happ1, happ2, hsig,
      spdm_generate_encap_error_response]
  · have h' : ¬ ctx.local_context.slot_count ≤ request[2]?.getD 0 := by omega
    simp [spdm_get_encap_response_challenge_auth, hcap, hlen, h',
      spdm_append_message_mut_c, happ1, happ2, hsig,
      spdm_generate_encap_error_response]

theorem process_success_eq (env : Env) (ctx : spdm_context_t)
    (request sg : List Nat)
    (hcap : env.chal_cap_supported = true)
    (hlen : request.length = spdm_challenge_request_size)
    (hslot : request.getD 2 0 = 0xFF ∨
      request.getD 2 0 < ctx.local_context.slot_count)
    (happ1 : env.append_ok ctx.message_mut_c request = true)
    (happ2 : env.append_ok (ctx.message_mut_c ++ request)
      (spdm_challenge_auth_response_unsigned env ctx (request.getD 2 0)) = true)
    (hsig : env.sign (resolved_slot ctx (request.getD 2 0))
      (ctx.message_mut_c ++ request ++
        spdm_challenge_auth_response_unsigned env ctx (request.getD 2 0)) = some sg) :
    spdm_get_encap_response_challenge_auth env ctx request =
      ⟨true,
        spdm_challenge_auth_response_header_size +
          env.hash_size_of ctx.algorithm.base_hash_algo + SPDM_NONCE_SIZE + 0 + 2 +
          ctx.local_context.opaq_challenge_auth_rsp.length +
          env.sig_size_of ctx.algorithm.req_base_asym_alg,
        spdm_challenge_auth_response_unsigned env ctx (request.getD 2 0) ++
          bytes_field (env.sig_size_of ctx.algorithm.req_base_asym_alg) sg,
        ⟨ctx.local_context, ctx.algorithm,
          ctx.message_mut_c ++ request ++
            spdm_challenge_auth_response_unsigned env ctx (request.getD 2 0)⟩⟩ := by
  simp only [List.getD_eq_getElem?_getD] at hslot happ2 hsig
  rw [List.append_assoc] at hsig
  rcases hslot with h | h
  · rw [h] at happ2 hsig
    simp [spdm_get_encap_response_challenge_auth, hcap, hlen, h,
      spdm_append_message_mut_c, happ1, happ2, hsig]
  · have h' : ¬ ctx.local_context.slot_count ≤ request[2]?.getD 0 := by omega
    simp [spdm_get_encap_response_challenge_auth, hcap, hlen, h',
      spdm_append_message_mut_c, happ1, happ2, hsig]

/-- Test fixture: context with 4 configured slots, provisioned default slot 1,
empty vendor blob, empty transcript. -/
def ctx4 : spdm_context_t := ⟨⟨4, 1, []⟩, ⟨0, 0⟩, []⟩

/-- Test fixture: context with 9 configured slots, so the explicit selector 8
passes validation. -/
def ctx9 : spdm_context_t := ⟨⟨9, 1, []⟩, ⟨0, 0⟩, []⟩

/-- Test fixture: every collaborator succeeds; 1-byte hash and signature; the
certificate digest and the signature encode the slot they were computed for. -/
def env_ok : Env :=
  ⟨true, true, fun _ => 1, fun _ => 1, fun _ _ => true, fun s => [s], [5],
    fun s _ => some [s]⟩

/-- Test fixture: like `env_ok` but the challenge capability was not
negotiated. -/
def env_nocap : Env :=
  ⟨false, true, fun _ => 1, fun _ => 1, fun _ _ => true, fun s => [s], [5],
    fun s _ => some [s]⟩

/-- Test fixture: like `env_ok` but the signer always fails. -/
def env_signfail : Env :=
  ⟨true, true, fun _ => 1, fun _ => 1, fun _ _ => true, fun s => [s], [5],
    fun _ _ => none⟩

/-- Test fixture: 32-byte hash, 64-byte signature, every collaborator
succeeds (the concrete 134-byte scenario of the spec). -/
def env134 : Env :=
  ⟨true, true, fun _ => 32, fun _ => 64, fun _ _ => true,
    fun _ => List.replicate 32 1, List.replicate 32 2,
    fun _ _ => some (List.replicate 64 3)⟩

/-- Test fixture: a 36-byte CHALLENGE request selecting slot 2. -/
def req_slot2 : List Nat := [0x11, 0x83, 2, 0] ++ List.replicate 32 0

/-- Test fixture: a 36-byte CHALLENGE request selecting slot 8. -/
def req_slot8 : List Nat := [0x11, 0x83, 8, 0] ++ List.replicate 32 0

/-- Test fixture: a 36-byte CHALLENGE request with the sentinel selector. -/
def req_sentinel : List Nat := [0x11, 0x83, 0xFF, 0] ++ List.replicate 32 0

/-- C4: whenever the negotiated capability set lacks challenge-authentication
support, the output for any request is an UnsupportedRequest error message
naming the CHALLENGE operation code, and the context (in particular its
transcript accumulator) is left unmodified. -/
theorem challenge_auth_capability_gate (env : Env) (ctx : spdm_context_t)
    (request : List Nat) (hcap : env.chal_cap_supported = false) :
    (spdm_get_encap_response_challenge_auth env ctx request).response =
      spdm_generate_encap_error_response env SPDM_ERROR_CODE_UNSUPPORTED_REQUEST
        SPDM_CHALLENGE ∧
    (spdm_get_encap_response_challenge_auth env ctx request).ctx = ctx := by
  rw [process_cap_fail_eq env ctx request hcap]
  exact ⟨rfl, rfl⟩

/-- Concrete instantiation of the capability-gate theorem. -/
theorem challenge_auth_capability_gate_witness :
    env_nocap.chal_cap_supported = false ∧
    ((spdm_get_encap_response_challenge_auth env_nocap ctx4 req_slot2).response =
      spdm_generate_encap_error_response env_nocap
        SPDM_ERROR_CODE_UNSUPPORTED_REQUEST SPDM_CHALLENGE ∧
     (spdm_get_encap_response_challenge_auth env_nocap ctx4 req_slot2).ctx = ctx4) :=
  ⟨rfl, challenge_auth_capability_gate env_nocap ctx4 req_slot2 rfl⟩

/-- C3: once the capability gate has passed (the gate precedes validation in
the control flow), every request whose length differs from the fixed 36-byte
challenge-message size, and every correctly-sized request whose slot selector
is neither the sentinel `0xFF` nor below the configured slot count, yields an
InvalidRequest error message and leaves the context (hence the transcript
accumulator) unmodified. -/
theorem challenge_auth_invalid_request_error (env : Env) (ctx : spdm_context_t)
    (request : List Nat) (hcap : env.chal_cap_supported = true)
    (hbad : request.length ≠ spdm_challenge_request_size ∨
      (request.length = spdm_challenge_request_size ∧ request.getD 2 0 ≠ 0xFF ∧
        ctx.local_context.slot_count ≤ request.getD 2 0)) :
    (spdm_get_encap_response_challenge_auth env ctx request).response =
      spdm_generate_encap_error_response env SPDM_ERROR_CODE_INVALID_REQUEST 0 ∧
    (spdm_get_encap_response_challenge_auth env ctx request).ctx = ctx := by
  rw [process_badreq_eq env ctx request hcap hbad]
  exact ⟨rfl, rfl⟩

/-- Concrete instantiation of the InvalidRequest theorem: a 35-byte request
(one byte short) is rejected with the transcript untouched. -/
theorem challenge_auth_invalid_request_error_witness :
    (env_ok.chal_cap_supported = true ∧
      (req_slot2.drop 1).length ≠ spdm_challenge_request_size) ∧
    ((spdm_get_encap_response_challenge_auth env_ok ctx4 (req_slot2.drop 1)).response =
      spdm_generate_encap_error_response env_ok SPDM_ERROR_CODE_INVALID_REQUEST 0 ∧
     (spdm_get_encap_response_challenge_auth env_ok ctx4 (req_slot2.drop 1)).ctx = ctx4) :=
  ⟨⟨rfl, by decide⟩,
    challenge_auth_invalid_request_error env_ok ctx4 (req_slot2.drop 1) rfl
      (Or.inl (by decide))⟩

/-- C2: for every environment, context and request, the operation reports
success to its caller, the reported size equals the number of response bytes,
and the response is exactly one message: an in-band ERROR message or a
CHALLENGE_AUTH response, discriminated by the response-code byte at offset 1. -/
theorem challenge_auth_always_reports_success (env : Env) (ctx : spdm_context_t)
    (request : List Nat) :
    (spdm_get_encap_response_challenge_auth env ctx request).status_success = true ∧
    (spdm_get_encap_response_challenge_auth env ctx request).response_size =
      (spdm_get_encap_response_challenge_auth env ctx request).response.length ∧
    ((spdm_get_encap_response_challenge_auth env ctx request).response.getD 1 0 =
        SPDM_ERROR ∨
      (spdm_get_encap_response_challenge_auth env ctx request).response.getD 1 0 =
        SPDM_CHALLENGE_AUTH) := by
  cases hcap : env.chal_cap_supported
  · rw [process_cap_fail_eq env ctx request hcap]
    exact ⟨rfl, rfl, Or.inl rfl⟩
  · by_cases hlen : request.length = spdm_challenge_request_size
    · by_cases hslot : request.getD 2 0 = 0xFF ∨
        request.getD 2 0 < ctx.local_context.slot_count
      · cases ha1 : env.append_ok ctx.message_mut_c request
        · rw [process_append1_fail_eq env ctx request hcap hlen hslot ha1]
          exact ⟨rfl, rfl, Or.inl rfl⟩
        · cases ha2 : env.append_ok (ctx.message_mut_c ++ request)
              (spdm_challenge_auth_response_unsigned env ctx (request.getD 2 0))
          · rw [process_append2_fail_eq env ctx request hcap hlen hslot ha1 ha2]
            exact ⟨rfl, rfl, Or.inl rfl⟩
          · cases hsig : env.sign (resolved_slot ctx (request.getD 2 0))
              (ctx.message_mut_c ++ request ++
                spdm_challenge_auth_response_unsigned env ctx (request.getD 2 0)) with
            | none =>
              rw [process_sign_fail_eq env ctx request hcap hlen hslot ha1 ha2 hsig]
              exact ⟨rfl, rfl, Or.inl rfl⟩
            | some sg =>
              rw [process_success_eq env ctx request sg hcap hlen hslot ha1 ha2 hsig]
              refine ⟨rfl, ?_, Or.inr rfl⟩
              show _ = (spdm_challenge_auth_response_unsigned env ctx
                (request.getD 2 0) ++
                bytes_field (env.sig_size_of ctx.algorithm.req_base_asym_alg) sg).length
              rw [List.length_append, unsigned_length, bytes_field_length]
              simp [spdm_challenge_auth_response_header_size]
      · push_neg at hslot
        rw [process_badreq_eq env ctx request hcap
          (Or.inr ⟨hlen, hslot.1, by omega⟩)]
        exact ⟨rfl, rfl, Or.inl rfl⟩
    · rw [process_badreq_eq env ctx request hcap (Or.inl hlen)]
      exact ⟨rfl, rfl, Or.inl rfl⟩

/-- C10: on every execution path the operation mutates the context only
through transcript appends: the local-context fields (slot count, provisioned
slot, vendor blob) and the negotiated algorithm identifiers are unchanged,
and the transcript afterwards is the transcript before followed by some
appended suffix. -/
theorem challenge_auth_frame (env : Env) (ctx : spdm_context_t)
    (request : List Nat) :
    (spdm_get_encap_response_challenge_auth env ctx request).ctx.local_context =
      ctx.local_context ∧
    (spdm_get_encap_response_challenge_auth env ctx request).ctx.algorithm =
      ctx.algorithm ∧
    ∃ t, (spdm_get_encap_response_challenge_auth env ctx request).ctx.message_mut_c =
      ctx.message_mut_c ++ t := by
  cases hcap : env.chal_cap_supported
  · rw [process_cap_fail_eq env ctx request hcap]
    exact ⟨rfl, rfl, [], (List.append_nil _).symm⟩
  · by_cases hlen : request.length = spdm_challenge_request_size
    · by_cases hslot : request.getD 2 0 = 0xFF ∨
        request.getD 2 0 < ctx.local_context.slot_count
      · cases ha1 : env.append_ok ctx.message_mut_c request
        · rw [process_append1_fail_eq env ctx request hcap hlen hslot ha1]
          exact ⟨rfl, rfl, [], (List.append_nil _).symm⟩
        · cases ha2 : env.append_ok (ctx.message_mut_c ++ request)
              (spdm_challenge_auth_response_unsigned env ctx (request.getD 2 0))
          · rw [process_append2_fail_eq env ctx request hcap hlen hslot ha1 ha2]
            exact ⟨rfl, rfl, request, rfl⟩
          · cases hsig : env.sign (resolved_slot ctx (request.getD 2 0))
              (ctx.message_mut_c ++ request ++
                spdm_challenge_auth_response_unsigned env ctx (request.getD 2 0)) with
            | none =>
              rw [process_sign_fail_eq env ctx request hcap hlen hslot ha1 ha2 hsig]
              exact ⟨rfl, rfl,
                request ++ spdm_challenge_auth_response_unsigned env ctx
                  (request.getD 2 0),
                List.append_assoc _ _ _⟩
            | some sg =>
              rw [process_success_eq env ctx request sg hcap hlen hslot ha1 ha2 hsig]
              exact ⟨rfl, rfl,
                request ++ spdm_challenge_auth_response_unsigned env ctx
                  (request.getD 2 0),
                List.append_assoc _ _ _⟩
      · push_neg at hslot
        rw [process_badreq_eq env ctx request hcap
          (Or.inr ⟨hlen, hslot.1, by omega⟩)]
        exact ⟨rfl, rfl, [], (List.append_nil _).symm⟩
    · rw [process_badreq_eq env ctx request hcap (Or.inl hlen)]
      exact ⟨rfl, rfl, [], (List.append_nil _).symm⟩

/-- C1: for every exchange that completes successfully (capability
negotiated, request exactly the fixed size, slot selector valid, both
transcript appends accepted, signer succeeds), the transcript afterwards
equals the transcript before, appended first with the raw request bytes and
then with the response bytes from the header through the opaque-data field
(signature region excluded), in that order; the signer is invoked on exactly
that fully-appended transcript, and its signature fills the trailing field. -/
theorem challenge_auth_transcript_two_appends_before_sign (env : Env)
    (ctx : spdm_context_t) (request sg : List Nat)
    (hcap : env.chal_cap_supported = true)
    (hlen : request.length = spdm_challenge_request_size)
    (hslot : request.getD 2 0 = 0xFF ∨
      request.getD 2 0 < ctx.local_context.slot_count)
    (happ1 : env.append_ok ctx.message_mut_c request = true)
    (happ2 : env.append_ok (ctx.message_mut_c ++ request)
      (spdm_challenge_auth_response_unsigned env ctx (request.getD 2 0)) = true)
    (hsig : env.sign (resolved_slot ctx (request.getD 2 0))
      (ctx.message_mut_c ++ request ++
        spdm_challenge_auth_response_unsigned env ctx (request.getD 2 0)) =
      some sg) :
    (spdm_get_encap_response_challenge_auth env ctx request).ctx.message_mut_c =
      ctx.message_mut_c ++ request ++
        spdm_challenge_auth_response_unsigned env ctx (request.getD 2 0) ∧
    env.sign (resolved_slot ctx (request.getD 2 0))
      (spdm_get_encap_response_challenge_auth env ctx request).ctx.message_mut_c =
      some sg ∧
    (spdm_get_encap_response_challenge_auth env ctx request).response =
      spdm_challenge_auth_response_unsigned env ctx (request.getD 2 0) ++
        bytes_field (env.sig_size_of ctx.algorithm.req_base_asym_alg) sg := by
  rw [process_success_eq env ctx request sg hcap hlen hslot happ1 happ2 hsig]
  exact ⟨rfl, hsig, rfl⟩

/-- Concrete instantiation of the transcript-ordering theorem. -/
theorem challenge_auth_transcript_two_appends_before_sign_witness :
    (env_ok.chal_cap_supported = true ∧
     req_slot2.length = spdm_challenge_request_size ∧
     (req_slot2.getD 2 0 = 0xFF ∨
       req_slot2.getD 2 0 < ctx4.local_context.slot_count) ∧
     env_ok.append_ok ctx4.message_mut_c req_slot2 = true ∧
     env_ok.append_ok (ctx4.message_mut_c ++ req_slot2)
       (spdm_challenge_auth_response_unsigned env_ok ctx4 (req_slot2.getD 2 0)) =
       true ∧
     env_ok.sign (resolved_slot ctx4 (req_slot2.getD 2 0))
       (ctx4.message_mut_c ++ req_slot2 ++
         spdm_challenge_auth_response_unsigned env_ok ctx4 (req_slot2.getD 2 0)) =
       some [2]) ∧
    ((spdm_get_encap_response_challenge_auth env_ok ctx4 req_slot2).ctx.message_mut_c =
      ctx4.message_mut_c ++ req_slot2 ++
        spdm_challenge_auth_response_unsigned env_ok ctx4 (req_slot2.getD 2 0) ∧
     env_ok.sign (resolved_slot ctx4 (req_slot2.getD 2 0))
       (spdm_get_encap_response_challenge_auth env_ok ctx4
         req_slot2).ctx.message_mut_c = some [2] ∧
     (spdm_get_encap_response_challenge_auth env_ok ctx4 req_slot2).response =
       spdm_challenge_auth_response_unsigned env_ok ctx4 (req_slot2.getD 2 0) ++
         bytes_field (env_ok.sig_size_of ctx4.algorithm.req_base_asym_alg) [2]) :=
  ⟨⟨rfl, by decide, by decide, rfl, rfl, by decide⟩,
   challenge_auth_transcript_two_appends_before_sign env_ok ctx4 req_slot2 [2]
     rfl (by decide) (by decide) rfl rfl (by decide)⟩

/-- C5 as stated fails on the code: with 9 configured slots and the valid
explicit selector 8, the response slot-bitmask byte is the uint8 truncation
of `1 << 8`, which is 0, not `1 << 8 = 256`. -/
theorem challenge_auth_slot_mask_counterexample :
    (spdm_get_encap_response_challenge_auth env_ok ctx9 req_slot8).response.getD 3 0 =
      0 ∧
    ¬ (spdm_get_encap_response_challenge_auth env_ok ctx9
        req_slot8).response.getD 3 0 = 2 ^ req_slot8.getD 2 0 := by
  decide

/-- C5 amended: for every successful exchange with an explicit selector
`s < slot_count`, the slot-bitmask byte equals `(1 << s) mod 256` (hence
`1 << s` exactly when `s < 8`), and the attribute byte equals `s & 0xF`, so
the mutual-auth-requested flag and the reserved bits are zero. -/
theorem challenge_auth_slot_mask_mod256 (env : Env) (ctx : spdm_context_t)
    (request sg : List Nat)
    (hcap : env.chal_cap_supported = true)
    (hlen : request.length = spdm_challenge_request_size)
    (h255 : request.getD 2 0 ≠ 0xFF)
    (hlt : request.getD 2 0 < ctx.local_context.slot_count)
    (happ1 : env.append_ok ctx.message_mut_c request = true)
    (happ2 : env.append_ok (ctx.message_mut_c ++ request)
      (spdm_challenge_auth_response_unsigned env ctx (request.getD 2 0)) = true)
    (hsig : env.sign (resolved_slot ctx (request.getD 2 0))
      (ctx.message_mut_c ++ request ++
        spdm_challenge_auth_response_unsigned env ctx (request.getD 2 0)) =
      some sg) :
    (spdm_get_encap_response_challenge_auth env ctx request).response.getD 3 0 =
      2 ^ (request.getD 2 0) % 256 ∧
    (spdm_get_encap_response_challenge_auth env ctx request).response.getD 2 0 =
      request.getD 2 0 % 16 := by
  rw [process_success_eq env ctx request sg hcap hlen (Or.inr hlt) happ1 happ2
    hsig]
  constructor
  · show slot_mask_byte (request.getD 2 0) = 2 ^ (request.getD 2 0) % 256
    simp only [slot_mask_byte]
    rw [if_neg h255]
  · rfl

/-- Concrete instantiation of the amended slot-mask theorem: explicit
selector 2 among 4 slots gives bitmask byte 4 and attribute byte 2. -/
theorem challenge_auth_slot_mask_mod256_witness :
    (env_ok.chal_cap_supported = true ∧
     req_slot2.length = spdm_challenge_request_size ∧
     req_slot2.getD 2 0 ≠ 0xFF ∧
     req_slot2.getD 2 0 < ctx4.local_context.slot_count ∧
     env_ok.append_ok ctx4.message_mut_c req_slot2 = true ∧
     env_ok.append_ok (ctx4.message_mut_c ++ req_slot2)
       (spdm_challenge_auth_response_unsigned env_ok ctx4 (req_slot2.getD 2 0)) =
       true ∧
     env_ok.sign (resolved_slot ctx4 (req_slot2.getD 2 0))
       (ctx4.message_mut_c ++ req_slot2 ++
         spdm_challenge_auth_response_unsigned env_ok ctx4 (req_slot2.getD 2 0)) =
       some [2]) ∧
    ((spdm_get_encap_response_challenge_auth env_ok ctx4 req_slot2).response.getD
        3 0 = 2 ^ (req_slot2.getD 2 0) % 256 ∧
     (spdm_get_encap_response_challenge_auth env_ok ctx4 req_slot2).response.getD
        2 0 = req_slot2.getD 2 0 % 16) :=
  ⟨⟨rfl, by decide, by decide, by decide, rfl, rfl, by decide⟩,
   challenge_auth_slot_mask_mod256 env_ok ctx4 req_slot2 [2] rfl (by decide)
     (by decide) (by decide) rfl rfl (by decide)⟩

/-- C6: for every successful exchange with the sentinel selector 0xFF, the
slot-bitmask byte is 0, the attribute byte is `0xFF & 0xF = 0xF`, the
certificate-chain digest field is the digest computed for the context's
provisioned default slot, and the signer is invoked with the provisioned
default slot (not 0xFF) on the fully-appended transcript. -/
theorem challenge_auth_sentinel_slot (env : Env) (ctx : spdm_context_t)
    (request sg : List Nat)
    (hcap : env.chal_cap_supported = true)
    (hlen : request.length = spdm_challenge_request_size)
    (h255 : request.getD 2 0 = 0xFF)
    (happ1 : env.append_ok ctx.message_mut_c request = true)
    (happ2 : env.append_ok (ctx.message_mut_c ++ request)
      (spdm_challenge_auth_response_unsigned env ctx (request.getD 2 0)) = true)
    (hsig : env.sign ctx.local_context.provisioned_slot_id
      (ctx.message_mut_c ++ request ++
        spdm_challenge_auth_response_unsigned env ctx (request.getD 2 0)) =
      some sg) :
    (spdm_get_encap_response_challenge_auth env ctx request).response.getD 3 0 =
      0 ∧
    (spdm_get_encap_response_challenge_auth env ctx request).response.getD 2 0 =
      0xF ∧
    (spdm_get_encap_response_challenge_auth env ctx request).response =
      [spdm_select_version env, SPDM_CHALLENGE_AUTH, 0xF, 0]
      ++ bytes_field (env.hash_size_of ctx.algorithm.base_hash_algo)
          (env.cert_chain_hash ctx.local_context.provisioned_slot_id)
      ++ bytes_field SPDM_NONCE_SIZE env.nonce
      ++ uint16_le ctx.local_context.opaq_challenge_auth_rsp.length
      ++ ctx.local_context.opaq_challenge_auth_rsp
      ++ bytes_field (env.sig_size_of ctx.algorithm.req_base_asym_alg) sg ∧
    env.sign ctx.local_context.provisioned_slot_id
      (spdm_get_encap_response_challenge_auth env ctx request).ctx.message_mut_c =
      some sg := by
  have hr : resolved_slot ctx (request.getD 2 0) =
      ctx.local_context.provisioned_slot_id := by
    rw [h255]; rfl
  have hsig2 : env.sign (resolved_slot ctx (request.getD 2 0))
      (ctx.message_mut_c ++ request ++
        spdm_challenge_auth_response_unsigned env ctx (request.getD 2 0)) =
      some sg := by
    rw [hr]; exact hsig
  rw [process_success_eq env ctx request sg hcap hlen (Or.inl h255) happ1 happ2
    hsig2]
  refine ⟨?_, ?_, ?_, hsig⟩
  · show slot_mask_byte (request.getD 2 0) = 0
    rw [h255]; rfl
  · show auth_attribute_byte (request.getD 2 0) = 0xF
    rw [h255]; rfl
  · show spdm_challenge_auth_response_unsigned env ctx (request.getD 2 0) ++
      bytes_field (env.sig_size_of ctx.algorithm.req_base_asym_alg) sg = _
    rw [h255]
    simp [spdm_challenge_auth_response_unsigned, auth_attribute_byte,
      slot_mask_byte, resolved_slot]

/-- Concrete instantiation of the sentinel-selector theorem: provisioned
default slot 1 is used for digest and signature. -/
theorem challenge_auth_sentinel_slot_witness :
    (env_ok.chal_cap_supported = true ∧
     req_sentinel.length = spdm_challenge_request_size ∧
     req_sentinel.getD 2 0 = 0xFF ∧
     env_ok.append_ok ctx4.message_mut_c req_sentinel = true ∧
     env_ok.append_ok (ctx4.message_mut_c ++ req_sentinel)
       (spdm_challenge_auth_response_unsigned env_ok ctx4
         (req_sentinel.getD 2 0)) = true ∧
     env_ok.sign ctx4.local_context.provisioned_slot_id
       (ctx4.message_mut_c ++ req_sentinel ++
         spdm_challenge_auth_response_unsigned env_ok ctx4
           (req_sentinel.getD 2 0)) = some [1]) ∧
    ((spdm_get_encap_response_challenge_auth env_ok ctx4
        req_sentinel).response.getD 3 0 = 0 ∧
     (spdm_get_encap_response_challenge_auth env_ok ctx4
        req_sentinel).response.getD 2 0 = 0xF) :=
  ⟨⟨rfl, by decide, by decide, rfl, rfl, by decide⟩,
   (challenge_auth_sentinel_slot env_ok ctx4 req_sentinel [1] rfl (by decide)
      (by decide) rfl rfl (by decide)).1,
   (challenge_auth_sentinel_slot env_ok ctx4 req_sentinel [1] rfl (by decide)
      (by decide) rfl rfl (by decide)).2.1⟩

/-- C7: for every successful exchange the reported total response size is
exactly fixed-header + hash-size + 32 (nonce) + 0 (measurement summary) + 2
(opaque-length field) + opaque-data length + signature size, and that many
bytes are produced. -/
theorem challenge_auth_total_size (env : Env) (ctx : spdm_context_t)
    (request sg : List Nat)
    (hcap : env.chal_cap_supported = true)
    (hlen : request.length = spdm_challenge_request_size)
    (hslot : request.getD 2 0 = 0xFF ∨
      request.getD 2 0 < ctx.local_context.slot_count)
    (happ1 : env.append_ok ctx.message_mut_c request = true)
    (happ2 : env.append_ok (ctx.message_mut_c ++ request)
      (spdm_challenge_auth_response_unsigned env ctx (request.getD 2 0)) = true)
    (hsig : env.sign (resolved_slot ctx (request.getD 2 0))
      (ctx.message_mut_c ++ request ++
        spdm_challenge_auth_response_unsigned env ctx (request.getD 2 0)) =
      some sg) :
    (spdm_get_encap_response_challenge_auth env ctx request).response_size =
      spdm_challenge_auth_response_header_size +
        env.hash_size_of ctx.algorithm.base_hash_algo + SPDM_NONCE_SIZE + 0 + 2 +
        ctx.local_context.opaq_challenge_auth_rsp.length +
        env.sig_size_of ctx.algorithm.req_base_asym_alg ∧
    (spdm_get_encap_response_challenge_auth env ctx request).response.length =
      (spdm_get_encap_response_challenge_auth env ctx request).response_size := by
  rw [process_success_eq env ctx request sg hcap hlen hslot happ1 happ2 hsig]
  refine ⟨rfl, ?_⟩
  show (spdm_challenge_auth_response_unsigned env ctx (request.getD 2 0) ++
      bytes_field (env.sig_size_of ctx.algorithm.req_base_asym_alg) sg).length = _
  rw [List.length_append, unsigned_length, bytes_field_length]
  rfl

/-- Concrete instantiation of the total-size theorem: 32-byte hash, 64-byte
signature, empty vendor blob gives 4 + 32 + 32 + 0 + 2 + 0 + 64 = 134 bytes. -/
theorem challenge_auth_total_size_witness :
    (env134.chal_cap_supported = true ∧
     req_slot2.length = spdm_challenge_request_size ∧
     (req_slot2.getD 2 0 = 0xFF ∨
       req_slot2.getD 2 0 < ctx4.local_context.slot_count) ∧
     env134.append_ok ctx4.message_mut_c req_slot2 = true ∧
     env134.append_ok (ctx4.message_mut_c ++ req_slot2)
       (spdm_challenge_auth_response_unsigned env134 ctx4 (req_slot2.getD 2 0)) =
       true ∧
     env134.sign (resolved_slot ctx4 (req_slot2.getD 2 0))
       (ctx4.message_mut_c ++ req_slot2 ++
         spdm_challenge_auth_response_unsigned env134 ctx4 (req_slot2.getD 2 0)) =
       some (List.replicate 64 3)) ∧
    (spdm_get_encap_response_challenge_auth env134 ctx4 req_slot2).response_size =
      134 ∧
    (spdm_get_encap_response_challenge_auth env134 ctx4 req_slot2).response.length =
      134 :=
  ⟨⟨rfl, by decide, by decide, rfl, rfl, by decide⟩,
   (challenge_auth_total_size env134 ctx4 req_slot2 (List.replicate 64 3) rfl
      (by decide) (by decide) rfl rfl (by decide)).1,
   (challenge_auth_total_size env134 ctx4 req_slot2 (List.replicate 64 3) rfl
      (by decide) (by decide) rfl rfl (by decide)).2.trans
     (challenge_auth_total_size env134 ctx4 req_slot2 (List.replicate 64 3) rfl
       (by decide) (by decide) rfl rfl (by decide)).1⟩

/-- C8: for every exchange that builds a response, exactly one protocol
version byte is written into the response header: 1.1 when the session
negotiated at least 1.1, else 1.0. -/
theorem challenge_auth_version_select (env : Env) (ctx : spdm_context_t)
    (request sg : List Nat)
    (hcap : env.chal_cap_supported = true)
    (hlen : request.length = spdm_challenge_request_size)
    (hslot : request.getD 2 0 = 0xFF ∨
      request.getD 2 0 < ctx.local_context.slot_count)
    (happ1 : env.append_ok ctx.message_mut_c request = true)
    (happ2 : env.append_ok (ctx.message_mut_c ++ request)
      (spdm_challenge_auth_response_unsigned env ctx (request.getD 2 0)) = true)
    (hsig : env.sign (resolved_slot ctx (request.getD 2 0))
      (ctx.message_mut_c ++ request ++
        spdm_challenge_auth_response_unsigned env ctx (request.getD 2 0)) =
      some sg) :
    (spdm_get_encap_response_challenge_auth env ctx request).response.getD 0 0 =
      if env.version_11_supported then SPDM_MESSAGE_VERSION_11
      else SPDM_MESSAGE_VERSION_10 := by
  rw [process_success_eq env ctx request sg hcap hlen hslot happ1 happ2 hsig]
  rfl

/-- Concrete instantiation of the version-selection theorem. -/
theorem challenge_auth_version_select_witness :
    (env_ok.chal_cap_supported = true ∧
     req_slot2.length = spdm_challenge_request_size ∧
     (req_slot2.getD 2 0 = 0xFF ∨
       req_slot2.getD 2 0 < ctx4.local_context.slot_count) ∧
     env_ok.append_ok ctx4.message_mut_c req_slot2 = true ∧
     env_ok.append_ok (ctx4.message_mut_c ++ req_slot2)
       (spdm_challenge_auth_response_unsigned env_ok ctx4 (req_slot2.getD 2 0)) =
       true ∧
     env_ok.sign (resolved_slot ctx4 (req_slot2.getD 2 0))
       (ctx4.message_mut_c ++ req_slot2 ++
         spdm_challenge_auth_response_unsigned env_ok ctx4 (req_slot2.getD 2 0)) =
       some [2]) ∧
    (spdm_get_encap_response_challenge_auth env_ok ctx4 req_slot2).response.getD
      0 0 =
      (if env_ok.version_11_supported then SPDM_MESSAGE_VERSION_11
       else SPDM_MESSAGE_VERSION_10) :=
  ⟨⟨rfl, by decide, by decide, rfl, rfl, by decide⟩,
   challenge_auth_version_select env_ok ctx4 req_slot2 [2] rfl (by decide)
     (by decide) rfl rfl (by decide)⟩

/-- C9: when the signer fails after the response body was built and both
transcript appends succeeded, the output is an UnsupportedRequest error
naming the CHALLENGE_AUTH response code (not the request code), and the
transcript keeps both appends already made for this exchange. -/
theorem challenge_auth_sign_failure (env : Env) (ctx : spdm_context_t)
    (request : List Nat)
    (hcap : env.chal_cap_supported = true)
    (hlen : request.length = spdm_challenge_request_size)
    (hslot : request.getD 2 0 = 0xFF ∨
      request.getD 2 0 < ctx.local_context.slot_count)
    (happ1 : env.append_ok ctx.message_mut_c request = true)
    (happ2 : env.append_ok (ctx.message_mut_c ++ request)
      (spdm_challenge_auth_response_unsigned env ctx (request.getD 2 0)) = true)
    (hsig : env.sign (resolved_slot ctx (request.getD 2 0))
      (ctx.message_mut_c ++ request ++
        spdm_challenge_auth_response_unsigned env ctx (request.getD 2 0)) =
      none) :
    (spdm_get_encap_response_challenge_auth env ctx request).response =
      spdm_generate_encap_error_response env SPDM_ERROR_CODE_UNSUPPORTED_REQUEST
        SPDM_CHALLENGE_AUTH ∧
    (spdm_get_encap_response_challenge_auth env ctx request).ctx.message_mut_c =
      ctx.message_mut_c ++ request ++
        spdm_challenge_auth_response_unsigned env ctx (request.getD 2 0) := by
  rw [process_sign_fail_eq env ctx request hcap hlen hslot happ1 happ2 hsig]
  exact ⟨rfl, rfl⟩

/-- Concrete instantiation of the signer-failure theorem. -/
theorem challenge_auth_sign_failure_witness :
    (env_signfail.chal_cap_supported = true ∧
     req_slot2.length = spdm_challenge_request_size ∧
     (req_slot2.getD 2 0 = 0xFF ∨
       req_slot2.getD 2 0 < ctx4.local_context.slot_count) ∧
     env_signfail.append_ok ctx4.message_mut_c req_slot2 = true ∧
     env_signfail.append_ok (ctx4.message_mut_c ++ req_slot2)
       (spdm_challenge_auth_response_unsigned env_signfail ctx4
         (req_slot2.getD 2 0)) = true ∧
     env_signfail.sign (resolved_slot ctx4 (req_slot2.getD 2 0))
       (ctx4.message_mut_c ++ req_slot2 ++
         spdm_challenge_auth_response_unsigned env_signfail ctx4
           (req_slot2.getD 2 0)) = none) ∧
    ((spdm_get_encap_response_challenge_auth env_signfail ctx4 req_slot2).response =
      spdm_generate_encap_error_response env_signfail
        SPDM_ERROR_CODE_UNSUPPORTED_REQUEST SPDM_CHALLENGE_AUTH ∧
     (spdm_get_encap_response_challenge_auth env_signfail ctx4
        req_slot2).ctx.message_mut_c =
      ctx4.message_mut_c ++ req_slot2 ++
        spdm_challenge_auth_response_unsigned env_signfail ctx4
          (req_slot2.getD 2 0)) :=
  ⟨⟨rfl, by decide, by decide, rfl, rfl, rfl⟩,
   challenge_auth_sign_failure env_signfail ctx4 req_slot2 rfl (by decide)
     (by decide) rfl rfl rfl⟩

end Spdm
